import Mathlib

/-!
Shallow embedding of the computational core of `house-affordability-analyzer`.

Numbers are modelled by `ℚ` (exact arithmetic for the source's real-number
expressions).  A Python arithmetic failure (division by a zero divisor, or
`0.0 ** n` with `n < 0`) is modelled by `Except Err`.  Namespace `Main`
embeds `src/main.py`, whose scenario is keyed by the absolute down-payment
amount; namespace `Streamlit` embeds `src/streamlit_calculator.py`, whose
scenario is keyed by the down-payment percentage.  The two files' formulas
are otherwise identical.
-/

/-- Failure values for embedded Python code.  The source defines no
`InvalidInputError` class anywhere; the constructor `invalidInputError`
exists only so that statements about that spec-named error can be written.
No embedded definition ever produces it: the only error Python raises in
this code is `ZeroDivisionError`. -/
inductive Err where
  | zeroDivisionError
  | invalidInputError
deriving DecidableEq, Repr

deriving instance DecidableEq for Except

/-- Embedding of `numpy.linspace a b n`: `n` evenly spaced samples over the closed
interval `[a, b]`, sample `i` being `a + i*(b-a)/(n-1)` (over `ℚ` the last
sample equals `b` exactly, matching numpy's endpoint handling). -/
def linspace (a b : ℚ) (n : ℕ) : List ℚ :=
  (List.range n).map fun (i : ℕ) => a + (i : ℚ) * (b - a) / ((n : ℚ) - 1)

namespace Main

/-- The `MortgageScenario` dataclass of `src/main.py` (lines 14-24). -/
structure MortgageScenario where
  home_price : ℚ
  down_payment_amount : ℚ
  interest_rate : ℚ
  loan_term_years : ℤ
  monthly_income : ℚ
  monthly_debts : ℚ := 0
  property_tax_annual : ℚ := 0
  insurance_annual : ℚ := 0
  hoa_monthly : ℚ := 0
deriving DecidableEq, Repr

/-- Embeds `MortgageModel.calculate_monthly_payment` (`src/main.py` lines 30-42).
Python raises `ZeroDivisionError` when `years * 12 == 0` in the zero-rate
branch, when `(1+monthly_rate) ** num_payments` has zero base and negative
exponent, and when the denominator `(1+monthly_rate)**num_payments - 1`
is zero; otherwise the exact formula value is returned. -/
def calculate_monthly_payment (principal annual_rate : ℚ) (years : ℤ) : Except Err ℚ :=
  if annual_rate = 0 then
    if (years : ℚ) * 12 = 0 then .error .zeroDivisionError
    else .ok (principal / ((years : ℚ) * 12))
  else
    let monthly_rate := annual_rate / 12 / 100
    let num_payments := years * 12
    if 1 + monthly_rate = 0 ∧ num_payments < 0 then .error .zeroDivisionError
    else if (1 + monthly_rate) ^ num_payments - 1 = 0 then .error .zeroDivisionError
    else .ok (principal * (monthly_rate * (1 + monthly_rate) ^ num_payments) /
      ((1 + monthly_rate) ^ num_payments - 1))

/-- The metrics dict returned by
`MortgageModel.calculate_affordability_metrics` (`src/main.py` lines 67-80),
as a record with one field per dict key. -/
structure Metrics where
  loan_amount : ℚ
  down_payment : ℚ
  down_payment_percent : ℚ
  monthly_pi : ℚ
  monthly_property_tax : ℚ
  monthly_insurance : ℚ
  total_monthly_payment : ℚ
  front_end_ratio : ℚ
  back_end_ratio : ℚ
  total_payments : ℚ
  total_interest : ℚ
  affordable : Bool
deriving DecidableEq, Repr

/-- Embeds `MortgageModel.calculate_affordability_metrics` (`src/main.py`
lines 44-80).  Python's evaluation order raises `ZeroDivisionError` first at
`down_payment_amount / home_price` when `home_price == 0`, then inside
`calculate_monthly_payment`, then at the ratio divisions when
`monthly_income == 0`. -/
def calculate_affordability_metrics (s : MortgageScenario) : Except Err Metrics :=
  let loan_amount := s.home_price - s.down_payment_amount
  let down_payment := s.down_payment_amount
  if s.home_price = 0 then .error .zeroDivisionError else
  let down_payment_percent := s.down_payment_amount / s.home_price * 100
  match calculate_monthly_payment loan_amount s.interest_rate s.loan_term_years with
  | .error e => .error e
  | .ok monthly_pi =>
    let monthly_property_tax := s.property_tax_annual / 12
    let monthly_insurance := s.insurance_annual / 12
    let total_monthly_payment :=
      monthly_pi + monthly_property_tax + monthly_insurance + s.hoa_monthly
    if s.monthly_income = 0 then .error .zeroDivisionError else
    let front_end_ratio := total_monthly_payment / s.monthly_income * 100
    let back_end_ratio := (total_monthly_payment + s.monthly_debts) / s.monthly_income * 100
    let total_payments := monthly_pi * (s.loan_term_years : ℚ) * 12
    let total_interest := total_payments - loan_amount
    .ok { loan_amount := loan_amount
          down_payment := down_payment
          down_payment_percent := down_payment_percent
          monthly_pi := monthly_pi
          monthly_property_tax := monthly_property_tax
          monthly_insurance := monthly_insurance
          total_monthly_payment := total_monthly_payment
          front_end_ratio := front_end_ratio
          back_end_ratio := back_end_ratio
          total_payments := total_payments
          total_interest := total_interest
          affordable := decide (front_end_ratio ≤ 28) && decide (back_end_ratio ≤ 36) }

/-- The derived scenario the price sweep of
`MortgageModel.generate_comparison_data` builds (`src/main.py` lines
92-103): down payment kept, tax and insurance recomputed from the sampled
price. -/
def price_scenario (b : MortgageScenario) (price : ℚ) : MortgageScenario :=
  { home_price := price
    down_payment_amount := b.down_payment_amount
    interest_rate := b.interest_rate
    loan_term_years := b.loan_term_years
    monthly_income := b.monthly_income
    monthly_debts := b.monthly_debts
    property_tax_annual := price * 0.01
    insurance_annual := price * 0.003
    hoa_monthly := b.hoa_monthly }

/-- The derived scenario the rate sweep builds (`src/main.py` lines
115-125): only `interest_rate` replaced. -/
def rate_scenario (b : MortgageScenario) (rate : ℚ) : MortgageScenario :=
  { home_price := b.home_price
    down_payment_amount := b.down_payment_amount
    interest_rate := rate
    loan_term_years := b.loan_term_years
    monthly_income := b.monthly_income
    monthly_debts := b.monthly_debts
    property_tax_annual := b.property_tax_annual
    insurance_annual := b.insurance_annual
    hoa_monthly := b.hoa_monthly }

/-- The derived scenario the down-payment sweep builds (`src/main.py`
lines 137-147): only `down_payment_amount` replaced. -/
def dp_scenario (b : MortgageScenario) (dp_amount : ℚ) : MortgageScenario :=
  { home_price := b.home_price
    down_payment_amount := dp_amount
    interest_rate := b.interest_rate
    loan_term_years := b.loan_term_years
    monthly_income := b.monthly_income
    monthly_debts := b.monthly_debts
    property_tax_annual := b.property_tax_annual
    insurance_annual := b.insurance_annual
    hoa_monthly := b.hoa_monthly }

/-- One element of the list returned by `generate_comparison_data`
(the dict appended at `src/main.py` lines 105-111). -/
structure DataEntry where
  scenario_type : String
  variable_value : ℚ
  monthly_payment : ℚ
  front_end_ratio : ℚ
  affordable : Bool
deriving DecidableEq, Repr

/-- One sweep loop of `generate_comparison_data`: evaluate the derived
scenario at each sample value, in order, and collect the chart entries.
A raised error aborts the whole call, as in Python. -/
def axis_data (label : String) (mk : ℚ → MortgageScenario) :
    List ℚ → Except Err (List DataEntry)
  | [] => .ok []
  | x :: xs =>
    match calculate_affordability_metrics (mk x) with
    | .error e => .error e
    | .ok m =>
      match axis_data label mk xs with
      | .error e => .error e
      | .ok rest =>
        .ok ({ scenario_type := label
               variable_value := x
               monthly_payment := m.total_monthly_payment
               front_end_ratio := m.front_end_ratio
               affordable := m.affordable } :: rest)

/-- Embeds `MortgageModel.generate_comparison_data` (`src/main.py` lines 82-159):
three sweeps of 10 `linspace` samples each, emitted in the order
price, rate, down payment. -/
def generate_comparison_data (base : MortgageScenario)
    (price_range rate_range down_payment_range : ℚ × ℚ) :
    Except Err (List DataEntry) :=
  match axis_data "Price Variation" (price_scenario base)
      (linspace price_range.1 price_range.2 10) with
  | .error e => .error e
  | .ok price_data =>
    match axis_data "Rate Variation" (rate_scenario base)
        (linspace rate_range.1 rate_range.2 10) with
    | .error e => .error e
    | .ok rate_data =>
      match axis_data "Down Payment Variation" (dp_scenario base)
          (linspace down_payment_range.1 down_payment_range.2 10) with
      | .error e => .error e
      | .ok dp_data => .ok (price_data ++ rate_data ++ dp_data)

/-- The value `calculate_monthly_payment` returns when it does not raise:
the straight-line payment at rate zero, the standard amortization formula
otherwise. -/
def payment_value (principal annual_rate : ℚ) (years : ℤ) : ℚ :=
  if annual_rate = 0 then principal / ((years : ℚ) * 12)
  else
    principal * ((annual_rate / 12 / 100) * (1 + annual_rate / 12 / 100) ^ (years * 12)) /
      ((1 + annual_rate / 12 / 100) ^ (years * 12) - 1)

/-- The metrics record `calculate_affordability_metrics` returns when it
does not raise. -/
def metricsOf (s : MortgageScenario) : Metrics :=
  let loan_amount := s.home_price - s.down_payment_amount
  let monthly_pi := payment_value loan_amount s.interest_rate s.loan_term_years
  let total_monthly_payment :=
    monthly_pi + s.property_tax_annual / 12 + s.insurance_annual / 12 + s.hoa_monthly
  let front_end_ratio := total_monthly_payment / s.monthly_income * 100
  let back_end_ratio := (total_monthly_payment + s.monthly_debts) / s.monthly_income * 100
  let total_payments := monthly_pi * (s.loan_term_years : ℚ) * 12
  { loan_amount := loan_amount
    down_payment := s.down_payment_amount
    down_payment_percent := s.down_payment_amount / s.home_price * 100
    monthly_pi := monthly_pi
    monthly_property_tax := s.property_tax_annual / 12
    monthly_insurance := s.insurance_annual / 12
    total_monthly_payment := total_monthly_payment
    front_end_ratio := front_end_ratio
    back_end_ratio := back_end_ratio
    total_payments := total_payments
    total_interest := total_payments - loan_amount
    affordable := decide (front_end_ratio ≤ 28) && decide (back_end_ratio ≤ 36) }

end Main

namespace Streamlit

/-- The `MortgageScenario` dataclass of `src/streamlit_calculator.py` (lines 14-24):
keyed by `down_payment_percent` instead of the absolute amount. -/
structure MortgageScenario where
  home_price : ℚ
  down_payment_percent : ℚ
  interest_rate : ℚ
  loan_term_years : ℤ
  monthly_income : ℚ
  monthly_debts : ℚ := 0
  property_tax_annual : ℚ := 0
  insurance_annual : ℚ := 0
  hoa_monthly : ℚ := 0
deriving DecidableEq, Repr

/-- Embeds `MortgageModel.calculate_monthly_payment` of
`src/streamlit_calculator.py` (lines 30-42); textually identical to the
`main.py` function. -/
def calculate_monthly_payment (principal annual_rate : ℚ) (years : ℤ) : Except Err ℚ :=
  if annual_rate = 0 then
    if (years : ℚ) * 12 = 0 then .error .zeroDivisionError
    else .ok (principal / ((years : ℚ) * 12))
  else
    let monthly_rate := annual_rate / 12 / 100
    let num_payments := years * 12
    if 1 + monthly_rate = 0 ∧ num_payments < 0 then .error .zeroDivisionError
    else if (1 + monthly_rate) ^ num_payments - 1 = 0 then .error .zeroDivisionError
    else .ok (principal * (monthly_rate * (1 + monthly_rate) ^ num_payments) /
      ((1 + monthly_rate) ^ num_payments - 1))

/-- The metrics dict of `src/streamlit_calculator.py` (lines 66-78): the
same keys as the `main.py` dict except that there is no
`down_payment_percent` entry. -/
structure Metrics where
  loan_amount : ℚ
  down_payment : ℚ
  monthly_pi : ℚ
  monthly_property_tax : ℚ
  monthly_insurance : ℚ
  total_monthly_payment : ℚ
  front_end_ratio : ℚ
  back_end_ratio : ℚ
  total_payments : ℚ
  total_interest : ℚ
  affordable : Bool
deriving DecidableEq, Repr

/-- Embeds `MortgageModel.calculate_affordability_metrics` of
`src/streamlit_calculator.py` (lines 44-78): the loan amount and the down
payment are derived from the percentage; no division by `home_price`
occurs, so `home_price == 0` raises nothing here. -/
def calculate_affordability_metrics (s : MortgageScenario) : Except Err Metrics :=
  let loan_amount := s.home_price * (1 - s.down_payment_percent / 100)
  let down_payment := s.home_price * s.down_payment_percent / 100
  match calculate_monthly_payment loan_amount s.interest_rate s.loan_term_years with
  | .error e => .error e
  | .ok monthly_pi =>
    let monthly_property_tax := s.property_tax_annual / 12
    let monthly_insurance := s.insurance_annual / 12
    let total_monthly_payment :=
      monthly_pi + monthly_property_tax + monthly_insurance + s.hoa_monthly
    if s.monthly_income = 0 then .error .zeroDivisionError else
    let front_end_ratio := total_monthly_payment / s.monthly_income * 100
    let back_end_ratio := (total_monthly_payment + s.monthly_debts) / s.monthly_income * 100
    let total_payments := monthly_pi * (s.loan_term_years : ℚ) * 12
    let total_interest := total_payments - loan_amount
    .ok { loan_amount := loan_amount
          down_payment := down_payment
          monthly_pi := monthly_pi
          monthly_property_tax := monthly_property_tax
          monthly_insurance := monthly_insurance
          total_monthly_payment := total_monthly_payment
          front_end_ratio := front_end_ratio
          back_end_ratio := back_end_ratio
          total_payments := total_payments
          total_interest := total_interest
          affordable := decide (front_end_ratio ≤ 28) && decide (back_end_ratio ≤ 36) }

end Streamlit

/-- The pure conversion between the two scenario representations (spec §9):
the percent-keyed scenario equivalent to an amount-keyed one. -/
def amountToPercent (s : Main.MortgageScenario) : Streamlit.MortgageScenario :=
  { home_price := s.home_price
    down_payment_percent := s.down_payment_amount / s.home_price * 100
    interest_rate := s.interest_rate
    loan_term_years := s.loan_term_years
    monthly_income := s.monthly_income
    monthly_debts := s.monthly_debts
    property_tax_annual := s.property_tax_annual
    insurance_annual := s.insurance_annual
    hoa_monthly := s.hoa_monthly }

/-- Auxiliary sum `∑_{k=1}^{n} (1+m)^{-k}`: the present value of an
annuity of 1 per period at periodic rate `m`.  The amortized payment
equals `principal / paySum m n`, which is the form used to prove the
payment's strict monotonicity in the rate. -/
def paySum (m : ℚ) (n : ℕ) : ℚ :=
  ∑ k ∈ Finset.range n, ((1 + m)⁻¹) ^ (k + 1)

/-- A scenario whose ratios hit the affordability thresholds exactly:
total monthly payment `336/12 = 28` on income `100` gives a front-end
ratio of exactly 28, and debts `8` give a back-end ratio of exactly 36. -/
def boundary_scenario : Main.MortgageScenario :=
  { home_price := 336, down_payment_amount := 0, interest_rate := 0
    loan_term_years := 1, monthly_income := 100, monthly_debts := 8
    property_tax_annual := 0, insurance_annual := 0, hoa_monthly := 0 }

/-- The metrics `boundary_scenario` evaluates to. -/
def boundary_metrics : Main.Metrics :=
  { loan_amount := 336, down_payment := 0, down_payment_percent := 0
    monthly_pi := 28, monthly_property_tax := 0, monthly_insurance := 0
    total_monthly_payment := 28, front_end_ratio := 28, back_end_ratio := 36
    total_payments := 336, total_interest := 0, affordable := true }

/-- A scenario with `home_price = 0` and otherwise ordinary fields. -/
def zero_price_scenario : Main.MortgageScenario :=
  { home_price := 0, down_payment_amount := 0, interest_rate := 0
    loan_term_years := 30, monthly_income := 100, monthly_debts := 0
    property_tax_annual := 0, insurance_annual := 0, hoa_monthly := 0 }

/-- A small valid base scenario used as a concrete sweep/conversion input. -/
def sweep_base : Main.MortgageScenario :=
  { home_price := 100, down_payment_amount := 20, interest_rate := 0
    loan_term_years := 1, monthly_income := 100, monthly_debts := 0
    property_tax_annual := 0, insurance_annual := 0, hoa_monthly := 0 }

/-- The metrics `sweep_base` evaluates to under the amount-keyed engine. -/
def convert_metrics : Main.Metrics :=
  { loan_amount := 80, down_payment := 20, down_payment_percent := 20
    monthly_pi := 20 / 3, monthly_property_tax := 0, monthly_insurance := 0
    total_monthly_payment := 20 / 3, front_end_ratio := 20 / 3, back_end_ratio := 20 / 3
    total_payments := 80, total_interest := 0, affordable := true }

/-- The concrete scenario of the spec's §8 bullet: 500k house, 100k down,
6% for 30 years, 10k monthly income, no other costs. -/
def spec_scenario : Main.MortgageScenario :=
  { home_price := 500000, down_payment_amount := 100000, interest_rate := 6
    loan_term_years := 30, monthly_income := 10000, monthly_debts := 0
    property_tax_annual := 0, insurance_annual := 0, hoa_monthly := 0 }

/-- A zero-rate scenario with nonzero tax, insurance, HOA and debts. -/
def zr_scenario : Main.MortgageScenario :=
  { home_price := 100, down_payment_amount := 20, interest_rate := 0
    loan_term_years := 2, monthly_income := 50, monthly_debts := 5
    property_tax_annual := 12, insurance_annual := 6, hoa_monthly := 1 }

/-- The metrics `zr_scenario` evaluates to. -/
def zr_metrics : Main.Metrics :=
  { loan_amount := 80, down_payment := 20, down_payment_percent := 20
    monthly_pi := 10 / 3, monthly_property_tax := 1, monthly_insurance := 1 / 2
    total_monthly_payment := 35 / 6, front_end_ratio := 35 / 3, back_end_ratio := 65 / 3
    total_payments := 80, total_interest := 0, affordable := true }

/-- The percent-keyed counterpart of a `home_price = 0` scenario. -/
def zero_price_scenario_pct : Streamlit.MortgageScenario :=
  { home_price := 0, down_payment_percent := 0, interest_rate := 0
    loan_term_years := 30, monthly_income := 100, monthly_debts := 0
    property_tax_annual := 0, insurance_annual := 0, hoa_monthly := 0 }

/-- The metrics record the percent-keyed engine returns for
`zero_price_scenario_pct` (all-zero amounts, flagged affordable). -/
def zero_price_metrics_pct : Streamlit.Metrics :=
  { loan_amount := 0, down_payment := 0, monthly_pi := 0
    monthly_property_tax := 0, monthly_insurance := 0
    total_monthly_payment := 0, front_end_ratio := 0, back_end_ratio := 0
    total_payments := 0, total_interest := 0, affordable := true }

example : Main.calculate_monthly_payment 1200 0 1 = .ok 100 := by with_unfolding_all rfl

example : Main.calculate_monthly_payment 1200 1200 1 = .ok (327680 / 273) := by with_unfolding_all rfl

example : Main.calculate_monthly_payment 1200 0 0 = .error .zeroDivisionError := by with_unfolding_all rfl

example : Main.calculate_monthly_payment 1200 6 0 = .error .zeroDivisionError := by with_unfolding_all rfl

example : Main.calculate_monthly_payment 1200 0 (-1) = .ok (-100) := by with_unfolding_all rfl

/-- The two files' `calculate_monthly_payment` functions are the same
function (their bodies are textually identical in the source). -/
theorem payment_variants_agree :
    Streamlit.calculate_monthly_payment = Main.calculate_monthly_payment := rfl

/-- On the inputs the spec declares valid (`annual_rate ≥ 0`,
`years ≥ 1`), `calculate_monthly_payment` raises nothing and returns the
formula value. -/
theorem payment_ok (P r : ℚ) (y : ℤ) (hr : 0 ≤ r) (hy : 1 ≤ y) :
    Main.calculate_monthly_payment P r y = .ok (Main.payment_value P r y) := by
  rcases eq_or_lt_of_le hr with h0 | hpos
  · have hyq : (1 : ℚ) ≤ (y : ℚ) := by exact_mod_cast hy
    have hy12 : ((y : ℚ) * 12) ≠ 0 := by nlinarith
    simp [Main.calculate_monthly_payment, Main.payment_value, ← h0, hy12]
  · have hrne : r ≠ 0 := ne_of_gt hpos
    have hm : 0 < r / 12 / 100 := by positivity
    have hq : (1 : ℚ) < 1 + r / 12 / 100 := by linarith
    have hn : (0 : ℤ) < y * 12 := by omega
    have hpw : (1 : ℚ) < (1 + r / 12 / 100) ^ (y * 12 : ℤ) := one_lt_zpow₀ hq hn
    have hden : (1 + r / 12 / 100) ^ (y * 12 : ℤ) - 1 ≠ 0 :=
      sub_ne_zero.mpr (ne_of_gt hpw)
    have hguard : ¬((1 : ℚ) + r / 12 / 100 = 0 ∧ y * 12 < 0) := fun hc => absurd hc.2 (by omega)
    simp [Main.calculate_monthly_payment, Main.payment_value, hrne, hguard, hden]

/-- On a scenario satisfying the spec's invariants, the amount-keyed
`calculate_affordability_metrics` raises nothing and returns `metricsOf`. -/
theorem metrics_ok (s : Main.MortgageScenario) (hhp : s.home_price ≠ 0)
    (hinc : s.monthly_income ≠ 0) (hr : 0 ≤ s.interest_rate)
    (hy : 1 ≤ s.loan_term_years) :
    Main.calculate_affordability_metrics s = .ok (Main.metricsOf s) := by
  simp [Main.calculate_affordability_metrics, Main.metricsOf, hhp, hinc,
    payment_ok _ _ _ hr hy]

/-- Telescoping identity: `paySum m n * (m * (1+m)^n) = (1+m)^n - 1`. -/
theorem paySum_mul (m : ℚ) (hq : 1 + m ≠ 0) (n : ℕ) :
    paySum m n * (m * (1 + m) ^ n) = (1 + m) ^ n - 1 := by
  induction n with
  | zero => simp [paySum]
  | succ n ih =>
    have h1 : ((1 + m)⁻¹) ^ (n + 1) * (1 + m) ^ (n + 1) = 1 := by
      rw [← mul_pow, inv_mul_cancel₀ hq, one_pow]
    have expand : paySum m (n + 1) = paySum m n + ((1 + m)⁻¹) ^ (n + 1) := by
      rw [paySum, paySum, Finset.sum_range_succ]
    calc paySum m (n + 1) * (m * (1 + m) ^ (n + 1))
        = paySum m n * (m * (1 + m) ^ n) * (1 + m) +
            m * (((1 + m)⁻¹) ^ (n + 1) * (1 + m) ^ (n + 1)) := by rw [expand]; ring
      _ = ((1 + m) ^ n - 1) * (1 + m) + m * 1 := by rw [ih, h1]
      _ = (1 + m) ^ (n + 1) - 1 := by ring

/-- The sum `paySum` is positive for a nonnegative periodic rate and at least one
period. -/
theorem paySum_pos (m : ℚ) (hm : 0 ≤ m) (n : ℕ) (hn : n ≠ 0) : 0 < paySum m n := by
  have hq : (0 : ℚ) < 1 + m := by linarith
  refine Finset.sum_pos (fun k _ => pow_pos (inv_pos.mpr hq) _)
    (Finset.nonempty_range_iff.mpr hn)

/-- The sum `paySum` strictly decreases in the periodic rate. -/
theorem paySum_strict_anti (m₁ m₂ : ℚ) (h1 : 0 ≤ m₁) (h12 : m₁ < m₂) (n : ℕ)
    (hn : n ≠ 0) : paySum m₂ n < paySum m₁ n := by
  have hp1 : (0 : ℚ) < 1 + m₁ := by linarith
  have hp2 : (0 : ℚ) < 1 + m₂ := by linarith
  have hb : (1 + m₂)⁻¹ < (1 + m₁)⁻¹ := (inv_lt_inv₀ hp2 hp1).mpr (by linarith)
  exact Finset.sum_lt_sum_of_nonempty (Finset.nonempty_range_iff.mpr hn)
    fun k _ => pow_lt_pow_left₀ hb (le_of_lt (inv_pos.mpr hp2)) (Nat.succ_ne_zero k)

/-- The amortized payment as a present-value quotient: on valid inputs,
`payment_value P r y = P / paySum (r/1200) (12y)`, uniformly in the
zero-rate and positive-rate branches. -/
theorem payment_value_eq (P r : ℚ) (y : ℤ) (hr : 0 ≤ r) (hy : 1 ≤ y) :
    Main.payment_value P r y = P / paySum (r / 12 / 100) (y * 12).toNat := by
  have hyn : (((y * 12).toNat : ℤ)) = y * 12 := Int.toNat_of_nonneg (by omega)
  have hc : (((y * 12).toNat : ℕ) : ℚ) = (y : ℚ) * 12 := by exact_mod_cast hyn
  rcases eq_or_lt_of_le hr with h0 | hpos
  · have hsum : paySum (r / 12 / 100) (y * 12).toNat = ((y * 12).toNat : ℚ) := by
      simp [paySum, ← h0]
    rw [Main.payment_value, if_pos h0.symm, hsum, hc]
  · have hrne : r ≠ 0 := ne_of_gt hpos
    have hm : 0 < r / 12 / 100 := by positivity
    have hq : (0 : ℚ) < 1 + r / 12 / 100 := by linarith
    have hqne : (1 : ℚ) + r / 12 / 100 ≠ 0 := ne_of_gt hq
    have hzp : (1 + r / 12 / 100) ^ (y * 12 : ℤ) =
        (1 + r / 12 / 100) ^ ((y * 12).toNat : ℕ) := by
      rw [← zpow_natCast, hyn]
    have hmul := paySum_mul (r / 12 / 100) hqne (y * 12).toNat
    rw [Main.payment_value, if_neg hrne, hzp, ← hmul,
      mul_div_mul_right P (paySum (r / 12 / 100) (y * 12).toNat)
        (mul_ne_zero (ne_of_gt hm) (pow_ne_zero _ hqne))]

/-- Every sample of `linspace a b n` with `a ≤ b` is at least `a`. -/
theorem linspace_mem_ge {a b x : ℚ} {n : ℕ} (hab : a ≤ b) (hx : x ∈ linspace a b n) :
    a ≤ x := by
  rw [linspace, List.mem_map] at hx
  obtain ⟨i, hi, rfl⟩ := hx
  rw [List.mem_range] at hi
  have hn0 : 1 ≤ n := Nat.one_le_iff_ne_zero.mpr fun h => by
    subst h; exact absurd hi (Nat.not_lt_zero i)
  have hn1 : (1 : ℚ) ≤ (n : ℚ) := by exact_mod_cast hn0
  have h1 : (0 : ℚ) ≤ (i : ℚ) * (b - a) := mul_nonneg (Nat.cast_nonneg i) (by linarith)
  have h2 : (0 : ℚ) ≤ (n : ℚ) - 1 := by linarith
  have := div_nonneg h1 h2
  linarith

/-- A sweep loop over samples on which the engine raises nothing returns
the entry of `metricsOf` at each sample, in order. -/
theorem axis_data_ok (label : String) (mk : ℚ → Main.MortgageScenario) (l : List ℚ)
    (h : ∀ x ∈ l, Main.calculate_affordability_metrics (mk x) =
      .ok (Main.metricsOf (mk x))) :
    Main.axis_data label mk l = .ok (l.map fun x =>
      { scenario_type := label
        variable_value := x
        monthly_payment := (Main.metricsOf (mk x)).total_monthly_payment
        front_end_ratio := (Main.metricsOf (mk x)).front_end_ratio
        affordable := (Main.metricsOf (mk x)).affordable }) := by
  induction l with
  | nil => rfl
  | cons x xs ih =>
    simp only [Main.axis_data, h x (List.mem_cons_self x xs),
      ih fun z hz => h z (List.mem_cons_of_mem x hz), List.map_cons]

/-- C1: for every principal `P` and `termYears y ≥ 1`,
`amortizedPayment(P, 0, y)` returns exactly `P / (y*12)`, and for every
annual rate `r > 0` it returns
`P * m * (1+m)^n / ((1+m)^n - 1)` with `m = r/12/100`, `n = y*12`. -/
theorem amortizedPayment_formula (P r : ℚ) (y : ℤ) (hy : 1 ≤ y) :
    Main.calculate_monthly_payment P 0 y = .ok (P / ((y : ℚ) * 12)) ∧
    (0 < r → Main.calculate_monthly_payment P r y =
      .ok (P * (r / 12 / 100 * (1 + r / 12 / 100) ^ (y * 12)) /
        ((1 + r / 12 / 100) ^ (y * 12) - 1))) := by
  constructor
  · have h := payment_ok P 0 y le_rfl hy
    simpa [Main.payment_value] using h
  · intro hr
    have h := payment_ok P r y hr.le hy
    simpa [Main.payment_value, ne_of_gt hr] using h

/-- C1 witness: the theorem applied at `P = 1200`, `y = 1`. -/
theorem amortizedPayment_formula_witness :
    Main.calculate_monthly_payment 1200 0 1 = .ok (1200 / (((1 : ℤ) : ℚ) * 12)) :=
  (amortizedPayment_formula 1200 1200 1 (by norm_num)).1

/-- C2: whenever the amount-keyed `evaluate` returns a metrics record,
its `affordable` flag holds exactly when `front_end_ratio ≤ 28` and
`back_end_ratio ≤ 36` (inclusive comparisons). -/
theorem affordable_iff_thresholds (s : Main.MortgageScenario) (m : Main.Metrics)
    (h : Main.calculate_affordability_metrics s = .ok m) :
    m.affordable = true ↔ m.front_end_ratio ≤ 28 ∧ m.back_end_ratio ≤ 36 := by
  simp only [Main.calculate_affordability_metrics] at h
  split at h
  · simp at h
  · cases hpay : Main.calculate_monthly_payment (s.home_price - s.down_payment_amount)
        s.interest_rate s.loan_term_years with
    | error e => rw [hpay] at h; simp at h
    | ok v =>
      rw [hpay] at h
      split at h
      · simp at h
      · split at h
        · simp at h
        · simp only [Except.ok.injEq] at h
          subst h
          simp [Bool.and_eq_true, decide_eq_true_eq]

/-- C2 witness: a scenario whose ratios are exactly 28 and 36 evaluates
to an `affordable = true` record, so the thresholds are inclusive. -/
theorem affordable_iff_thresholds_witness :
    (boundary_metrics.affordable = true ↔
      boundary_metrics.front_end_ratio ≤ 28 ∧ boundary_metrics.back_end_ratio ≤ 36) ∧
    Main.calculate_affordability_metrics boundary_scenario = .ok boundary_metrics ∧
    boundary_metrics.front_end_ratio = 28 ∧ boundary_metrics.back_end_ratio = 36 ∧
    boundary_metrics.affordable = true :=
  ⟨affordable_iff_thresholds boundary_scenario boundary_metrics
      (by with_unfolding_all rfl),
   by with_unfolding_all rfl, rfl, rfl, rfl⟩

/-- C3 counterexample: at `home_price = 0` the amount-keyed `evaluate`
raises the bare division-by-zero error, not the spec's
`InvalidInputError` (no such error exists anywhere in the source); the
percent-keyed variant does not fail at all there and returns a record. -/
theorem evaluate_zero_price_counterexample :
    Main.calculate_affordability_metrics zero_price_scenario =
      .error .zeroDivisionError ∧
    Main.calculate_affordability_metrics zero_price_scenario ≠
      .error .invalidInputError ∧
    Streamlit.calculate_affordability_metrics zero_price_scenario_pct =
      .ok zero_price_metrics_pct := by
  have h : Main.calculate_affordability_metrics zero_price_scenario =
      .error .zeroDivisionError := by with_unfolding_all rfl
  exact ⟨h, by rw [h]; simp, by with_unfolding_all rfl⟩

/-- C3 (amended): for every scenario with `home_price = 0`, the
amount-keyed `evaluate` fails with `ZeroDivisionError` (from the
`down_payment_amount / home_price` division) rather than returning a
metrics record or propagating NaN/Infinity. -/
theorem evaluate_zero_price_raises (s : Main.MortgageScenario)
    (h : s.home_price = 0) :
    Main.calculate_affordability_metrics s = .error .zeroDivisionError := by
  simp [Main.calculate_affordability_metrics, h]

/-- C3 witness: the amended theorem applied at a concrete scenario. -/
theorem evaluate_zero_price_raises_witness :
    Main.calculate_affordability_metrics zero_price_scenario =
      .error .zeroDivisionError :=
  evaluate_zero_price_raises zero_price_scenario rfl

/-- C5: the price sweep's derived scenario replaces `home_price` by the
sample, recomputes `property_tax_annual = 0.01 * price` and
`insurance_annual = 0.003 * price` (independently of the base's values),
and copies every other field from the base; the rate and down-payment
sweeps replace only their swept field. -/
theorem sweep_frame_conditions (b : Main.MortgageScenario) (p r d : ℚ) :
    Main.price_scenario b p =
      { b with home_price := p
               property_tax_annual := 0.01 * p
               insurance_annual := 0.003 * p } ∧
    Main.rate_scenario b r = { b with interest_rate := r } ∧
    Main.dp_scenario b d = { b with down_payment_amount := d } := by
  refine ⟨?_, rfl, rfl⟩
  simp [Main.price_scenario, mul_comm]

/-- C6 counterexample: with `termYears = 0` the function raises
`ZeroDivisionError` (it does divide by zero), and with `termYears = -1`
at rate 0 it returns the value `-100` — in neither case the spec's
`InvalidInputError`, which the source never defines. -/
theorem amortizedPayment_nonpositive_term_counterexample :
    Main.calculate_monthly_payment 1200 0 0 = .error .zeroDivisionError ∧
    Main.calculate_monthly_payment 1200 0 (-1) = .ok (-100) := by
  constructor <;> with_unfolding_all rfl

/-- C6 (amended): with `termYears = 0` the function fails with
`ZeroDivisionError` for any rate; with `termYears < 0` and rate 0 it
silently returns the (negative) straight-line value; and every failure
it can produce is `ZeroDivisionError`, never `InvalidInputError`. -/
theorem amortizedPayment_nonpositive_term (P r : ℚ) (y : ℤ) :
    (y = 0 → Main.calculate_monthly_payment P r y = .error .zeroDivisionError) ∧
    (y < 0 → r = 0 → Main.calculate_monthly_payment P r y =
      .ok (P / ((y : ℚ) * 12))) ∧
    ∀ e, Main.calculate_monthly_payment P r y = .error e →
      e = .zeroDivisionError := by
  refine ⟨?_, ?_, ?_⟩
  · rintro rfl
    by_cases hr : r = 0
    · simp [Main.calculate_monthly_payment, hr]
    · simp [Main.calculate_monthly_payment, hr]
  · intro hy hr
    have hyq : (y : ℚ) < 0 := by exact_mod_cast hy
    have hy12 : ((y : ℚ) * 12) ≠ 0 := by nlinarith
    simp [Main.calculate_monthly_payment, hr, hy12]
  · intro e he
    simp only [Main.calculate_monthly_payment] at he
    split_ifs at he <;> simp_all

/-- C6 witness: the amended theorem applied at `P = 1200` with
`termYears = 0` and `termYears = -1`. -/
theorem amortizedPayment_nonpositive_term_witness :
    Main.calculate_monthly_payment 1200 0 0 = .error .zeroDivisionError ∧
    Main.calculate_monthly_payment 1200 0 (-1) =
      .ok (1200 / (((-1 : ℤ) : ℚ) * 12)) :=
  ⟨(amortizedPayment_nonpositive_term 1200 0 0).1 rfl,
   (amortizedPayment_nonpositive_term 1200 0 (-1)).2.1 (by norm_num) rfl⟩

/-- C7: for fixed principal `P > 0` and term `y ≥ 1`, the amortized
payment is strictly increasing in the annual rate over `r ≥ 0`. -/
theorem amortizedPayment_strict_mono_rate (P r₁ r₂ v₁ v₂ : ℚ) (y : ℤ)
    (hP : 0 < P) (hy : 1 ≤ y) (hr₁ : 0 ≤ r₁) (h12 : r₁ < r₂)
    (h₁ : Main.calculate_monthly_payment P r₁ y = .ok v₁)
    (h₂ : Main.calculate_monthly_payment P r₂ y = .ok v₂) :
    v₁ < v₂ := by
  have e₁ := payment_ok P r₁ y hr₁ hy
  have e₂ := payment_ok P r₂ y (le_trans hr₁ h12.le) hy
  rw [h₁, Except.ok.injEq] at e₁
  rw [h₂, Except.ok.injEq] at e₂
  subst e₁
  subst e₂
  rw [payment_value_eq P r₁ y hr₁ hy, payment_value_eq P r₂ y (le_trans hr₁ h12.le) hy]
  have hm₁ : 0 ≤ r₁ / 12 / 100 := by positivity
  have hm : r₁ / 12 / 100 < r₂ / 12 / 100 :=
    div_lt_div_of_pos_right (div_lt_div_of_pos_right h12 (by norm_num)) (by norm_num)
  have hn : ((y * 12).toNat) ≠ 0 := by omega
  exact div_lt_div_of_pos_left hP
    (paySum_pos (r₂ / 12 / 100) (le_trans hm₁ hm.le) ((y * 12).toNat) hn)
    (paySum_strict_anti (r₁ / 12 / 100) (r₂ / 12 / 100) hm₁ hm ((y * 12).toNat) hn)

/-- C7 witness: at `P = 1200`, `y = 1`, the payment at rate 0 (100) is
below the payment at rate 1200 (327680/273). -/
theorem amortizedPayment_strict_mono_rate_witness : (100 : ℚ) < 327680 / 273 :=
  amortizedPayment_strict_mono_rate 1200 0 1200 100 (327680 / 273) 1
    (by norm_num) (by norm_num) le_rfl (by norm_num)
    (by with_unfolding_all rfl) (by with_unfolding_all rfl)

/-- C8: on the spec's concrete scenario (500k price, 100k down, 6% for
30 years, 10k income, nothing else) the engine returns a record with
loan amount exactly 400000, monthly P&I within 0.5 of 2398.20, front-end
ratio within 0.005 of 23.98, and `affordable = true`. -/
theorem spec_scenario_values :
    Main.calculate_affordability_metrics spec_scenario =
      .ok (Main.metricsOf spec_scenario) ∧
    (Main.metricsOf spec_scenario).loan_amount = 400000 ∧
    |(Main.metricsOf spec_scenario).monthly_pi - 2398.20| ≤ 0.5 ∧
    |(Main.metricsOf spec_scenario).front_end_ratio - 23.98| ≤ 0.005 ∧
    (Main.metricsOf spec_scenario).affordable = true := by
  refine ⟨metrics_ok spec_scenario (by norm_num [spec_scenario])
      (by norm_num [spec_scenario]) (by norm_num [spec_scenario])
      (by norm_num [spec_scenario]), ?_, ?_, ?_, ?_⟩ <;>
    norm_num [Main.metricsOf, Main.payment_value, spec_scenario, abs_le,
      Bool.and_eq_true, decide_eq_true_eq]

/-- C10: whenever the amount-keyed `evaluate` returns a record for a
scenario with `interest_rate = 0`, its `total_payments` equals
`loan_amount` exactly and its `total_interest` is exactly 0. -/
theorem zero_rate_totals (s : Main.MortgageScenario) (m : Main.Metrics)
    (hr : s.interest_rate = 0)
    (h : Main.calculate_affordability_metrics s = .ok m) :
    m.total_payments = m.loan_amount ∧ m.total_interest = 0 := by
  by_cases hy12 : ((s.loan_term_years : ℚ)) * 12 = 0
  · exfalso
    simp [Main.calculate_affordability_metrics, Main.calculate_monthly_payment,
      hr, hy12] at h
  · have hyne : ((s.loan_term_years : ℚ)) ≠ 0 := fun hz => hy12 (by rw [hz]; ring)
    simp only [Main.calculate_affordability_metrics, Main.calculate_monthly_payment,
      hr, if_pos rfl, if_neg hy12] at h
    split at h
    · simp at h
    · split at h
      · simp at h
      · split at h
        · simp at h
        · simp only [Except.ok.injEq] at h
          rename_i pi heq hinc
          simp only [if_true, Except.ok.injEq] at heq
          subst heq
          subst h
          have key : (s.home_price - s.down_payment_amount) /
              ((s.loan_term_years : ℚ) * 12) * (s.loan_term_years : ℚ) * 12 =
              s.home_price - s.down_payment_amount := by
            field_simp
            ring
          exact ⟨key, by simp [key]⟩

/-- C10 witness: the theorem applied at a concrete zero-rate scenario
with nonzero tax, insurance, HOA and debts. -/
theorem zero_rate_totals_witness :
    zr_metrics.total_payments = zr_metrics.loan_amount ∧
    zr_metrics.total_interest = 0 :=
  zero_rate_totals zr_scenario zr_metrics rfl (by with_unfolding_all rfl)

/-- C9: the two source variants agree under the down-payment
representation conversion: whenever the amount-keyed `evaluate` returns
a record for a scenario with positive `home_price`, the percent-keyed
`evaluate` on the converted scenario returns a record with the same
value in every shared field. -/
theorem variants_agree (s : Main.MortgageScenario) (m : Main.Metrics)
    (hhp : 0 < s.home_price)
    (h : Main.calculate_affordability_metrics s = .ok m) :
    Streamlit.calculate_affordability_metrics (amountToPercent s) =
      .ok { loan_amount := m.loan_amount
            down_payment := m.down_payment
            monthly_pi := m.monthly_pi
            monthly_property_tax := m.monthly_property_tax
            monthly_insurance := m.monthly_insurance
            total_monthly_payment := m.total_monthly_payment
            front_end_ratio := m.front_end_ratio
            back_end_ratio := m.back_end_ratio
            total_payments := m.total_payments
            total_interest := m.total_interest
            affordable := m.affordable } := by
  have hne : s.home_price ≠ 0 := ne_of_gt hhp
  have hloan : s.home_price * (1 - s.down_payment_amount / s.home_price * 100 / 100) =
      s.home_price - s.down_payment_amount := by
    field_simp
    ring
  have hdp : s.home_price * (s.down_payment_amount / s.home_price * 100) / 100 =
      s.down_payment_amount := by
    field_simp
  simp only [Main.calculate_affordability_metrics] at h
  split at h
  · simp at h
  · split at h
    · simp at h
    · split at h
      · simp at h
      · simp only [Except.ok.injEq] at h
        rename_i pi heq hinc
        subst h
        simp only [Streamlit.calculate_affordability_metrics, amountToPercent,
          payment_variants_agree, hloan, hdp, heq, if_neg hinc]

/-- C9 witness: the theorem applied at a concrete amount-keyed scenario
and its evaluated metrics. -/
theorem variants_agree_witness :
    Streamlit.calculate_affordability_metrics (amountToPercent sweep_base) =
      .ok { loan_amount := convert_metrics.loan_amount
            down_payment := convert_metrics.down_payment
            monthly_pi := convert_metrics.monthly_pi
            monthly_property_tax := convert_metrics.monthly_property_tax
            monthly_insurance := convert_metrics.monthly_insurance
            total_monthly_payment := convert_metrics.total_monthly_payment
            front_end_ratio := convert_metrics.front_end_ratio
            back_end_ratio := convert_metrics.back_end_ratio
            total_payments := convert_metrics.total_payments
            total_interest := convert_metrics.total_interest
            affordable := convert_metrics.affordable } :=
  variants_agree sweep_base convert_metrics (by norm_num [sweep_base])
    (by with_unfolding_all rfl)

/-- C4: under the scenario invariants and ranges with `min ≤ max` (the
price minimum positive, the rate minimum nonnegative),
`generate_comparison_data` succeeds and emits, per axis in the order
price, rate, down payment, exactly the 10 `linspace` samples
`min + i*(max-min)/9` for `i = 0..9`, in that order. -/
theorem generate_comparison_sampling (base : Main.MortgageScenario)
    (p₁ p₂ r₁ r₂ d₁ d₂ : ℚ)
    (hinc : base.monthly_income ≠ 0) (hhp : base.home_price ≠ 0)
    (hy : 1 ≤ base.loan_term_years) (hbr : 0 ≤ base.interest_rate)
    (hp0 : 0 < p₁) (hpp : p₁ ≤ p₂) (hr0 : 0 ≤ r₁) (hrr : r₁ ≤ r₂)
    (_hdd : d₁ ≤ d₂) :
    (Main.generate_comparison_data base (p₁, p₂) (r₁, r₂) (d₁, d₂)).map
        (List.map fun e => (e.scenario_type, e.variable_value)) =
      .ok ((((List.range 10).map fun (i : ℕ) =>
          ("Price Variation", p₁ + (i : ℚ) * (p₂ - p₁) / 9)) ++
        ((List.range 10).map fun (i : ℕ) =>
          ("Rate Variation", r₁ + (i : ℚ) * (r₂ - r₁) / 9))) ++
        ((List.range 10).map fun (i : ℕ) =>
          ("Down Payment Variation", d₁ + (i : ℚ) * (d₂ - d₁) / 9))) := by
  have hpr : ∀ x ∈ linspace p₁ p₂ 10,
      Main.calculate_affordability_metrics (Main.price_scenario base x) =
        .ok (Main.metricsOf (Main.price_scenario base x)) := by
    intro x hx
    have hxp : (0 : ℚ) < x := lt_of_lt_of_le hp0 (linspace_mem_ge hpp hx)
    exact metrics_ok _ (ne_of_gt hxp) hinc hbr hy
  have hra : ∀ x ∈ linspace r₁ r₂ 10,
      Main.calculate_affordability_metrics (Main.rate_scenario base x) =
        .ok (Main.metricsOf (Main.rate_scenario base x)) := by
    intro x hx
    exact metrics_ok _ hhp hinc (le_trans hr0 (linspace_mem_ge hrr hx)) hy
  have hdpa : ∀ x ∈ linspace d₁ d₂ 10,
      Main.calculate_affordability_metrics (Main.dp_scenario base x) =
        .ok (Main.metricsOf (Main.dp_scenario base x)) := by
    intro x _
    exact metrics_ok _ hhp hinc hbr hy
  have h1 := axis_data_ok "Price Variation" (Main.price_scenario base)
    (linspace p₁ p₂ 10) hpr
  have h2 := axis_data_ok "Rate Variation" (Main.rate_scenario base)
    (linspace r₁ r₂ 10) hra
  have h3 := axis_data_ok "Down Payment Variation" (Main.dp_scenario base)
    (linspace d₁ d₂ 10) hdpa
  have h9 : ((10 : ℕ) : ℚ) - 1 = 9 := by norm_num
  simp only [Main.generate_comparison_data, h1, h2, h3]
  simp only [Except.map, List.map_append, List.map_map, linspace, h9]
  rfl

/-- C4 witness: the theorem applied with the degenerate price range
`(100, 100)`; that axis's 10 samples are 10 identical values 100. -/
theorem generate_comparison_sampling_witness :
    ((Main.generate_comparison_data sweep_base (100, 100) (0, 0) (0, 0)).map
        (List.map fun e => (e.scenario_type, e.variable_value)) =
      .ok ((((List.range 10).map fun (i : ℕ) =>
          ("Price Variation", (100 : ℚ) + (i : ℚ) * (100 - 100) / 9)) ++
        ((List.range 10).map fun (i : ℕ) =>
          ("Rate Variation", (0 : ℚ) + (i : ℚ) * (0 - 0) / 9))) ++
        ((List.range 10).map fun (i : ℕ) =>
          ("Down Payment Variation", (0 : ℚ) + (i : ℚ) * (0 - 0) / 9)))) ∧
    linspace 100 100 10 = List.replicate 10 100 :=
  ⟨generate_comparison_sampling sweep_base 100 100 0 0 0 0
      (by norm_num [sweep_base]) (by norm_num [sweep_base])
      (by norm_num [sweep_base]) (by norm_num [sweep_base])
      (by norm_num) le_rfl le_rfl le_rfl le_rfl,
    by with_unfolding_all rfl⟩
